import Mathlib

/-
  Verification of the raster classifier and table-validation logic of the
  water-hyacinth dashboard (app.py).

  Modelling choices:
  * A pixel value of the floating-point band is either NaN or an exact
    numeric value, modelled as a rational.  The IEEE comparison semantics
    the numpy operations use (NaN compares false under ==, <= and >) are
    reproduced by `fvalEq`, `fvalLe` and `fvalGt`.
  * `rasterio` bounds are four rationals (left, bottom, right, top); the
    CRS is the string form of `src.crs` (absent = `none`, matching the
    falsy check `if src_crs`).
  * `rasterio.warp.transform_bounds` is external library code, so it is an
    abstract parameter `tb : String → Bounds → Bounds` of the functions
    that call it (source CRS string and native bounds in, EPSG:4326
    bounds out).
  * `st.error` followed by `st.stop` is modelled as an `Except.error`
    carrying what was displayed; an exception that no application code
    catches is an `uncaughtError` outcome.
-/

namespace Hyacinth

/-- A floating-point pixel value: NaN, or an exact number. -/
inductive FVal where
  | nan : FVal
  | num (q : ℚ) : FVal
deriving DecidableEq

/-- IEEE-style equality used by `band == nodata`: NaN is equal to nothing. -/
def fvalEq : FVal → FVal → Bool
  | FVal.num a, FVal.num b => a == b
  | _, _ => false

/-- `np.isnan`. -/
def isnan : FVal → Bool
  | FVal.nan => true
  | FVal.num _ => false

/-- IEEE-style `band <= c`: false on NaN. -/
def fvalLe (v : FVal) (c : ℚ) : Bool :=
  match v with
  | FVal.nan => false
  | FVal.num q => decide (q ≤ c)

/-- IEEE-style `band > c`: false on NaN. -/
def fvalGt (v : FVal) (c : ℚ) : Bool :=
  match v with
  | FVal.nan => false
  | FVal.num q => decide (c < q)

/-- Native bounds of a raster, as `rasterio` reports them. -/
structure Bounds where
  left : ℚ
  bottom : ℚ
  right : ℚ
  top : ℚ
deriving DecidableEq

/-- A single-band raster file as the classifier reads it: the band grid,
the optional declared no-data sentinel, the string form of the CRS
(`none` when `src.crs` is falsy), and the native bounds. -/
structure Raster where
  band : List (List FVal)
  nodata : Option FVal
  crs : Option String
  bounds : Bounds

/-- One RGBA pixel of the output image (uint8 channels). -/
structure RGBA where
  r : ℕ
  g : ℕ
  b : ℕ
  a : ℕ
deriving DecidableEq

/-- `[0, 120, 255, 180]` — the blue background color written by
`rgba[is_background]`. -/
def backgroundRGBA : RGBA := ⟨0, 120, 255, 180⟩

/-- `[0, 200, 0, 220]` — the green hyacinth color written by
`rgba[is_hyacinth]`. -/
def hyacinthRGBA : RGBA := ⟨0, 200, 0, 220⟩

/-- The value `np.zeros` initialises every pixel to. -/
def zeroRGBA : RGBA := ⟨0, 0, 0, 0⟩

/-- `is_nodata = (band == nodata) | np.isnan(band)` when a sentinel is
declared, else `np.isnan(band)` (app.py lines 80-83). -/
def is_nodata (nodata : Option FVal) (v : FVal) : Bool :=
  match nodata with
  | some nd => fvalEq v nd || isnan v
  | none => isnan v

/-- `is_background = is_nodata | (band <= 0)` (app.py line 86). -/
def is_background (nodata : Option FVal) (v : FVal) : Bool :=
  is_nodata nodata v || fvalLe v 0

/-- `is_hyacinth = (~is_nodata) & (band > 0)` (app.py line 89). -/
def is_hyacinth (nodata : Option FVal) (v : FVal) : Bool :=
  !is_nodata nodata v && fvalGt v 0

/-- The final value of one output pixel after the two masked writes over
the zero-initialised array: the background write happens first, the
hyacinth write second, so on (impossible) overlap the hyacinth color
would win, and a pixel in neither mask keeps the zero fill. -/
def classifyPixel (nodata : Option FVal) (v : FVal) : RGBA :=
  if is_hyacinth nodata v then hyacinthRGBA
  else if is_background nodata v then backgroundRGBA
  else zeroRGBA

/-- The `[[south, west], [north, east]]` bounding box. -/
abbrev BBox := (ℚ × ℚ) × (ℚ × ℚ)

/-- Python's `str.upper()`: uppercase every character. -/
def strUpper (s : String) : String := ⟨s.data.map Char.toUpper⟩

/-- `raster_bounds_4326` (app.py lines 50-61): reproject the native
bounds through `tb` exactly when a CRS is present and its uppercased
string form differs from `"EPSG:4326"`, then return
`[[south, west], [north, east]]`. -/
def raster_bounds_4326 (tb : String → Bounds → Bounds) (r : Raster) : BBox :=
  let b : Bounds :=
    match r.crs with
    | some c => if strUpper c ≠ "EPSG:4326" then tb c r.bounds else r.bounds
    | none => r.bounds
  ((b.bottom, b.left), (b.top, b.right))

/-- `classify_raster_to_rgba` (app.py lines 64-100): the bounding box
from `raster_bounds_4326` and the per-pixel classified RGBA grid of
band 1. -/
def classify_raster_to_rgba (tb : String → Bounds → Bounds) (r : Raster) :
    List (List RGBA) × BBox :=
  (r.band.map (fun row => row.map (classifyPixel r.nodata)), raster_bounds_4326 tb r)

/-- `validate_columns` (app.py lines 39-44): collect the required names
absent from the columns; on any missing name, display the missing list
and the found list and stop (`Except.error`), otherwise continue. -/
def validate_columns (cols : List String) (required : List String) :
    Except (List String × List String) Unit :=
  let missing := required.filter (fun c => !(cols.contains c))
  if missing.isEmpty then Except.ok () else Except.error (missing, cols)

/-- Pandas `str.strip()`: remove leading and trailing whitespace. -/
def strTrim (s : String) : String :=
  ⟨((s.data.dropWhile Char.isWhitespace).reverse.dropWhile Char.isWhitespace).reverse⟩

/-- The column trimming `df.columns.str.strip()` performed by `load_data`
(app.py line 32). -/
def load_data_columns (raw : List String) : List String :=
  raw.map strTrim

/-- The required columns passed at app.py line 190. -/
def requiredColumns : List String :=
  ["Season", "Month", "Area_km2", "Latitude", "Longitude"]

/-- The table pipeline: load (trimming column names), validate, and only
then hand the columns on to rendering.  An error renders nothing. -/
def table_view (raw : List String) (required : List String) :
    Except (List String × List String) (List String) := do
  let cols := load_data_columns raw
  validate_columns cols required
  pure cols

/-- What one run of the Map View branch can end in. -/
inductive ViewOutcome where
  | stoppedWithMessage (msg : String)
  | rendered (winter summer : List (List RGBA) × BBox)
  | uncaughtError (e : String)
deriving DecidableEq

/-- The install-instructions message of app.py lines 252-256. -/
def overlayHelpMessage : String :=
  "GeoTIFF overlay requires additional libraries.\n\nInstall with:\npip install folium streamlit-folium rasterio pillow numpy"

/-- The Map View branch (app.py lines 248-277): if the optional
geospatial libraries are unavailable, show the install message and stop;
otherwise read and classify the two rasters with no surrounding
exception handler, so a failed read escapes the view uncaught. -/
def map_view (hasOverlay : Bool) (tb : String → Bounds → Bounds)
    (winterRead summerRead : Except String Raster) : ViewOutcome :=
  if !hasOverlay then ViewOutcome.stoppedWithMessage overlayHelpMessage
  else
    match winterRead with
    | Except.error e => ViewOutcome.uncaughtError e
    | Except.ok rw =>
      match summerRead with
      | Except.error e => ViewOutcome.uncaughtError e
      | Except.ok rs =>
        ViewOutcome.rendered (classify_raster_to_rgba tb rw)
          (classify_raster_to_rgba tb rs)

/-- The classifier applied to the result of opening a file: there is no
`try`/`except` inside `raster_bounds_4326` or `classify_raster_to_rgba`,
so an open/read error passes straight through. -/
def classify_from_read (tb : String → Bounds → Bounds)
    (read : Except String Raster) : Except String (List (List RGBA) × BBox) :=
  match read with
  | Except.error e => Except.error e
  | Except.ok r => Except.ok (classify_raster_to_rgba tb r)

/-- Recognises the outcome in which the view stopped after displaying an
explanatory message. -/
def isStopMessage : ViewOutcome → Bool
  | ViewOutcome.stoppedWithMessage _ => true
  | _ => false

/-- Spec-side predicate: the pixel counts as no-data — it is NaN, or it
equals the declared sentinel under IEEE equality. -/
def specNoData (nd : Option FVal) (v : FVal) : Prop :=
  v = FVal.nan ∨ ∃ q : ℚ, v = FVal.num q ∧ nd = some (FVal.num q)

/-- Spec-side predicate for the Background class: no-data or value ≤ 0. -/
def specBackground (nd : Option FVal) (v : FVal) : Prop :=
  specNoData nd v ∨ ∃ q : ℚ, v = FVal.num q ∧ q ≤ 0

/-- Spec-side predicate for the Hyacinth class: not no-data and value > 0. -/
def specHyacinth (nd : Option FVal) (v : FVal) : Prop :=
  ¬ specNoData nd v ∧ ∃ q : ℚ, v = FVal.num q ∧ 0 < q

/-- The 2×2 scenario raster of the spec: no-data −9999, values
`[[-9999, 0], [5, -3]]`, CRS already the target, bounds
west=10, south=20, east=11, north=21. -/
def sampleRaster : Raster :=
  { band := [[FVal.num (-9999), FVal.num 0], [FVal.num 5, FVal.num (-3)]]
    nodata := some (FVal.num (-9999))
    crs := some "EPSG:4326"
    bounds := { left := 10, bottom := 20, right := 11, top := 21 } }

/-- A raster whose CRS string is not the EPSG:4326 spelling. -/
def projRaster : Raster :=
  { band := []
    nodata := none
    crs := some "ESRI:102022"
    bounds := { left := 10, bottom := 20, right := 11, top := 21 } }

/-- The identity stand-in for `transform_bounds`. -/
def idTransform : String → Bounds → Bounds := fun _ b => b

/-- A stand-in for `transform_bounds` that moves every coordinate, to
show when the transform is and is not consulted. -/
def constTransform : String → Bounds → Bounds :=
  fun _ _ => ⟨100, 200, 101, 201⟩

/-! ### Helper lemmas about the masks -/

lemma is_nodata_nan (nd : Option FVal) : is_nodata nd FVal.nan = true := by
  cases nd <;> rfl

lemma is_nodata_true_iff (nd : Option FVal) (v : FVal) :
    is_nodata nd v = true ↔ specNoData nd v := by
  cases v with
  | nan => simp [is_nodata_nan, specNoData]
  | num q =>
    cases nd with
    | none => simp [is_nodata, isnan, specNoData]
    | some s =>
      cases s with
      | nan => simp [is_nodata, fvalEq, isnan, specNoData]
      | num t =>
        simp only [is_nodata, fvalEq, isnan, Bool.or_false, beq_iff_eq, specNoData]
        constructor
        · intro h
          exact Or.inr ⟨q, rfl, by rw [h]⟩
        · rintro (h | ⟨p, hp, hs⟩)
          · exact FVal.noConfusion h
          · cases hp
            injection hs with h1
            injection h1 with h2
            exact h2.symm

lemma fvalLe_zero_iff (v : FVal) :
    fvalLe v 0 = true ↔ ∃ q : ℚ, v = FVal.num q ∧ q ≤ 0 := by
  cases v <;> simp [fvalLe]

lemma fvalGt_zero_iff (v : FVal) :
    fvalGt v 0 = true ↔ ∃ q : ℚ, v = FVal.num q ∧ 0 < q := by
  cases v <;> simp [fvalGt]

lemma is_background_true_iff (nd : Option FVal) (v : FVal) :
    is_background nd v = true ↔ specBackground nd v := by
  unfold is_background specBackground
  rw [Bool.or_eq_true, is_nodata_true_iff, fvalLe_zero_iff]

lemma is_hyacinth_true_iff (nd : Option FVal) (v : FVal) :
    is_hyacinth nd v = true ↔ specHyacinth nd v := by
  unfold is_hyacinth specHyacinth
  rw [Bool.and_eq_true, Bool.not_eq_true', ← Bool.not_eq_true,
    is_nodata_true_iff, fvalGt_zero_iff]

lemma hyacinth_eq_not_background (nd : Option FVal) (v : FVal) :
    is_hyacinth nd v = !is_background nd v := by
  cases v with
  | nan => simp [is_hyacinth, is_background, is_nodata_nan, fvalGt, fvalLe]
  | num q =>
    cases h : is_nodata nd (FVal.num q) with
    | true => simp [is_hyacinth, is_background, h]
    | false =>
      simp only [is_hyacinth, is_background, h, Bool.not_false, Bool.true_and,
        Bool.false_or, fvalGt, fvalLe]
      rcases le_or_lt q 0 with hq | hq
      · simp [hq, not_lt.mpr hq]
      · simp [hq, not_le.mpr hq]

lemma classifyPixel_eq_ite (nd : Option FVal) (v : FVal) :
    classifyPixel nd v =
      if is_hyacinth nd v then hyacinthRGBA else backgroundRGBA := by
  unfold classifyPixel
  cases h : is_hyacinth nd v with
  | true => simp
  | false =>
    have hb : is_background nd v = true := by
      have hp := hyacinth_eq_not_background nd v
      rw [h] at hp
      cases hbb : is_background nd v with
      | true => rfl
      | false => rw [hbb] at hp; simp at hp
    simp [hb]

lemma bg_ne_hy : backgroundRGBA ≠ hyacinthRGBA := by decide

lemma classifyPixel_background_iff (nd : Option FVal) (v : FVal) :
    classifyPixel nd v = backgroundRGBA ↔ specBackground nd v := by
  rw [classifyPixel_eq_ite, ← is_background_true_iff]
  cases h : is_hyacinth nd v with
  | true =>
    have hb := hyacinth_eq_not_background nd v
    rw [h] at hb
    simp only [if_pos rfl, if_true]
    constructor
    · intro he; exact absurd he.symm bg_ne_hy
    · intro hbt; rw [hbt] at hb; simp at hb
  | false =>
    have hb := hyacinth_eq_not_background nd v
    rw [h] at hb
    cases hbb : is_background nd v with
    | true => simp
    | false => rw [hbb] at hb; simp at hb

lemma classifyPixel_hyacinth_iff (nd : Option FVal) (v : FVal) :
    classifyPixel nd v = hyacinthRGBA ↔ specHyacinth nd v := by
  rw [classifyPixel_eq_ite, ← is_hyacinth_true_iff]
  cases h : is_hyacinth nd v with
  | true => simp
  | false => simp [bg_ne_hy]

/-! ### Helper lemmas about the bounding box -/

lemma raster_bounds_native (tb : String → Bounds → Bounds) (r : Raster)
    (h : r.crs = none ∨ ∃ s : String, r.crs = some s ∧ strUpper s = "EPSG:4326") :
    raster_bounds_4326 tb r =
      ((r.bounds.bottom, r.bounds.left), (r.bounds.top, r.bounds.right)) := by
  rcases h with h | ⟨s, hs, hu⟩
  · simp [raster_bounds_4326, h]
  · simp [raster_bounds_4326, hs, hu]

lemma raster_bounds_transformed (tb : String → Bounds → Bounds) (r : Raster)
    (s : String) (hs : r.crs = some s) (hu : strUpper s ≠ "EPSG:4326") :
    raster_bounds_4326 tb r =
      (((tb s r.bounds).bottom, (tb s r.bounds).left),
        ((tb s r.bounds).top, (tb s r.bounds).right)) := by
  simp [raster_bounds_4326, hs, hu]

/-! ### The claims -/

/-- Claim C1: for every pixel value v of the single band, the output RGBA
is the Background color (0, 120, 255, 180) iff v is no-data (it equals
the declared no-data sentinel when one is declared, or is NaN) or v ≤ 0,
and is the Hyacinth color (0, 200, 0, 220) iff v is not no-data and
v > 0. -/
theorem classify_pixel_class_characterisation (nd : Option FVal) (v : FVal) :
    (classifyPixel nd v = backgroundRGBA ↔ specBackground nd v) ∧
    (classifyPixel nd v = hyacinthRGBA ↔ specHyacinth nd v) :=
  ⟨classifyPixel_background_iff nd v, classifyPixel_hyacinth_iff nd v⟩

/-- Instance of C1 at a concrete sentinel and pixel value. -/
theorem classify_pixel_class_characterisation_witness :
    (classifyPixel (some (FVal.num (-9999))) (FVal.num 5) = backgroundRGBA ↔
      specBackground (some (FVal.num (-9999))) (FVal.num 5)) ∧
    (classifyPixel (some (FVal.num (-9999))) (FVal.num 5) = hyacinthRGBA ↔
      specHyacinth (some (FVal.num (-9999))) (FVal.num 5)) :=
  classify_pixel_class_characterisation (some (FVal.num (-9999))) (FVal.num 5)

/-- Claim C2: the Background and Hyacinth masks are exhaustive and
mutually exclusive — for every pixel exactly one of the two holds — so
every pixel of the output grid carries one of the two class colors and
none is left at the zero fill. -/
theorem classify_partition :
    (∀ (nd : Option FVal) (v : FVal),
      (is_background nd v = true ∧ is_hyacinth nd v = false ∧
        classifyPixel nd v = backgroundRGBA) ∨
      (is_background nd v = false ∧ is_hyacinth nd v = true ∧
        classifyPixel nd v = hyacinthRGBA)) ∧
    (∀ (tb : String → Bounds → Bounds) (r : Raster) (row : List RGBA) (px : RGBA),
      row ∈ (classify_raster_to_rgba tb r).1 → px ∈ row →
      (px = backgroundRGBA ∨ px = hyacinthRGBA)) := by
  constructor
  · intro nd v
    have hpart := hyacinth_eq_not_background nd v
    cases hb : is_background nd v with
    | true =>
      rw [hb] at hpart
      exact Or.inl ⟨rfl, hpart, by simp [classifyPixel_eq_ite, hpart]⟩
    | false =>
      rw [hb] at hpart
      exact Or.inr ⟨rfl, hpart, by simp [classifyPixel_eq_ite, hpart]⟩
  · intro tb r row px hrow hpx
    unfold classify_raster_to_rgba at hrow
    simp only [List.mem_map] at hrow
    obtain ⟨srow, _, hmap⟩ := hrow
    subst hmap
    simp only [List.mem_map] at hpx
    obtain ⟨v, _, hpv⟩ := hpx
    subst hpv
    cases h : is_hyacinth r.nodata v with
    | true => exact Or.inr (by simp [classifyPixel_eq_ite, h])
    | false => exact Or.inl (by simp [classifyPixel_eq_ite, h])

/-- Instance of C2 on a pixel of the sample raster's output grid. -/
theorem classify_partition_witness :
    backgroundRGBA = backgroundRGBA ∨ backgroundRGBA = hyacinthRGBA :=
  classify_partition.2 idTransform sampleRaster
    [backgroundRGBA, backgroundRGBA] backgroundRGBA (by decide) (by decide)

/-- Claim C3: on the 2×2 scenario raster (no-data −9999, values
[[-9999, 0], [5, -3]], CRS already EPSG:4326, bounds west=10, south=20,
east=11, north=21) the classifier returns the class grid
[[Background, Background], [Hyacinth, Background]] — so RGBA (0,0) is
(0,120,255,180) and RGBA (1,0) is (0,200,0,220) — and the bounding box
[[20,10],[21,11]] unchanged, whatever the reprojection transform. -/
theorem classify_sample_scenario (tb : String → Bounds → Bounds) :
    classify_raster_to_rgba tb sampleRaster =
      ([[backgroundRGBA, backgroundRGBA], [hyacinthRGBA, backgroundRGBA]],
        ((20, 10), (21, 11))) := rfl

/-- Claim C4: when the raster's CRS is absent, or its uppercased string
form is already the target "EPSG:4326", the returned bounding box is the
native one, untouched by the reprojection transform. -/
theorem bounds_roundtrip_no_reprojection (tb : String → Bounds → Bounds)
    (r : Raster)
    (h : r.crs = none ∨ ∃ s : String, r.crs = some s ∧ strUpper s = "EPSG:4326") :
    raster_bounds_4326 tb r =
      ((r.bounds.bottom, r.bounds.left), (r.bounds.top, r.bounds.right)) :=
  raster_bounds_native tb r h

/-- Instance of C4: a coordinate-moving transform is ignored when the CRS
is already the target. -/
theorem bounds_roundtrip_no_reprojection_witness :
    raster_bounds_4326 constTransform sampleRaster = ((20, 10), (21, 11)) :=
  bounds_roundtrip_no_reprojection constTransform sampleRaster
    (Or.inr ⟨"EPSG:4326", rfl, rfl⟩)

/-- Claim C5: a pixel whose value is exactly 0 is Background, and a pixel
equal to the declared no-data sentinel is Background whatever the
sentinel's value, in particular when it is strictly positive. -/
theorem classify_boundary_background (nd : Option FVal) :
    classifyPixel nd (FVal.num 0) = backgroundRGBA ∧
    ∀ s : ℚ, nd = some (FVal.num s) →
      classifyPixel nd (FVal.num s) = backgroundRGBA := by
  constructor
  · rw [classifyPixel_background_iff]
    exact Or.inr ⟨0, rfl, le_refl 0⟩
  · intro s hs
    rw [classifyPixel_background_iff]
    exact Or.inl (Or.inr ⟨s, rfl, hs⟩)

/-- Instance of C5 with the strictly positive sentinel 7. -/
theorem classify_boundary_background_witness :
    classifyPixel (some (FVal.num 7)) (FVal.num 0) = backgroundRGBA ∧
    classifyPixel (some (FVal.num 7)) (FVal.num 7) = backgroundRGBA :=
  ⟨(classify_boundary_background (some (FVal.num 7))).1,
    (classify_boundary_background (some (FVal.num 7))).2 7 rfl⟩

/-- Claim C6: the classifier is a pure function of the raster decoded
from the file bytes — two invocations on the same input yield identical
RGBA grids and bounding boxes. -/
theorem classify_deterministic (tb : String → Bounds → Bounds)
    (r₁ r₂ : Raster) (h : r₁ = r₂) :
    classify_raster_to_rgba tb r₁ = classify_raster_to_rgba tb r₂ := by
  rw [h]

/-- Instance of C6 on the sample raster. -/
theorem classify_deterministic_witness :
    classify_raster_to_rgba idTransform sampleRaster =
      classify_raster_to_rgba idTransform sampleRaster :=
  classify_deterministic idTransform sampleRaster sampleRaster rfl

/-! ### Table validation -/

lemma missing_nil_iff (cols required : List String) :
    required.filter (fun c => !(cols.contains c)) = [] ↔
      ∀ c ∈ required, c ∈ cols := by
  rw [List.filter_eq_nil_iff]
  constructor
  · intro h c hc
    have hb := h c hc
    simp only [Bool.not_eq_true', Bool.not_eq_false] at hb
    exact List.elem_iff.mp hb
  · intro h c hc
    simp only [Bool.not_eq_true', Bool.not_eq_false]
    exact List.elem_iff.mpr (h c hc)

/-- Claim C7: validation passes (and the columns flow on to rendering)
iff every required column name is present among the trimmed column
names; otherwise the view halts with the list of missing names and the
list of found names, rendering nothing. -/
theorem validate_columns_characterisation (raw required : List String) :
    (table_view raw required = Except.ok (load_data_columns raw) ↔
      ∀ c ∈ required, c ∈ load_data_columns raw) ∧
    (table_view raw required =
        Except.error
          (required.filter (fun c => !((load_data_columns raw).contains c)),
            load_data_columns raw) ↔
      ∃ c ∈ required, c ∉ load_data_columns raw) := by
  by_cases hm :
      required.filter (fun c => !((load_data_columns raw).contains c)) = []
  · have hv : validate_columns (load_data_columns raw) required =
        Except.ok () := by
      unfold validate_columns
      rw [hm]
      rfl
    have ht : table_view raw required = Except.ok (load_data_columns raw) := by
      simp only [table_view]
      rw [hv]
      rfl
    constructor
    · exact iff_of_true ht ((missing_nil_iff _ _).mp hm)
    · apply iff_of_false
      · intro heq
        rw [ht] at heq
        exact Except.noConfusion heq
      · rintro ⟨c, hc, hnc⟩
        exact hnc ((missing_nil_iff _ _).mp hm c hc)
  · have hv : validate_columns (load_data_columns raw) required =
        Except.error
          (required.filter (fun c => !((load_data_columns raw).contains c)),
            load_data_columns raw) := by
      unfold validate_columns
      simp only [List.isEmpty_iff, if_neg hm]
    have ht : table_view raw required =
        Except.error
          (required.filter (fun c => !((load_data_columns raw).contains c)),
            load_data_columns raw) := by
      simp only [table_view]
      rw [hv]
      rfl
    constructor
    · apply iff_of_false
      · intro heq
        rw [ht] at heq
        exact Except.noConfusion heq
      · intro hall
        exact hm ((missing_nil_iff _ _).mpr hall)
    · refine iff_of_true ht ?_
      have hnall : ¬ ∀ c ∈ required, c ∈ load_data_columns raw :=
        fun hall => hm ((missing_nil_iff _ _).mpr hall)
      push_neg at hnall
      exact hnall

/-- Instance of C7: the spec's missing-"Latitude" scenario — validation
reports missing=["Latitude"] with the trimmed found columns, and no
columns are handed on. -/
theorem validate_columns_characterisation_witness :
    table_view [" Season", "Month ", "Area_km2", "Longitude"] requiredColumns =
      Except.error (["Latitude"], ["Season", "Month", "Area_km2", "Longitude"]) :=
  (validate_columns_characterisation [" Season", "Month ", "Area_km2", "Longitude"]
      requiredColumns).2.mpr ⟨"Latitude", by decide, by decide⟩

/-! ### Map view error behaviour -/

/-- Claim C8 counterexample: with the geospatial libraries available but
the winter raster read failing, the Map View branch lets the error
escape uncaught — the outcome is not a stop-with-explanatory-message. -/
theorem map_view_read_failure_not_handled :
    map_view true idTransform (Except.error "RasterioIOError")
        (Except.ok sampleRaster) =
      ViewOutcome.uncaughtError "RasterioIOError" ∧
    isStopMessage
        (map_view true idTransform (Except.error "RasterioIOError")
          (Except.ok sampleRaster)) = false :=
  ⟨rfl, rfl⟩

/-- Claim C8 as amended: an open/read error is not recovered inside the
classifier and propagates to the caller; the Map View shows the install
message and halts when the capability set is unavailable; but a raster
read failure with the capability present escapes the view uncaught, with
no explanatory message from the application code. -/
theorem raster_error_propagation (tb : String → Bounds → Bounds) (e : String)
    (w s : Except String Raster) (r : Raster) :
    classify_from_read tb (Except.error e) = Except.error e ∧
    map_view false tb w s = ViewOutcome.stoppedWithMessage overlayHelpMessage ∧
    map_view true tb (Except.error e) s = ViewOutcome.uncaughtError e ∧
    map_view true tb (Except.ok r) (Except.error e) =
      ViewOutcome.uncaughtError e :=
  ⟨rfl, rfl, rfl, rfl⟩

/-! ### Bounding box invariants -/

/-- Claim C9: for a non-degenerate raster (native west < east and
south < north) and a transform preserving non-degeneracy, the returned
bounding box is the south-west corner then the north-east corner, each
latitude-first, with south < north and west < east. -/
theorem bounds_invariant (tb : String → Bounds → Bounds) (r : Raster)
    (htb : ∀ (c : String) (b : Bounds), b.left < b.right → b.bottom < b.top →
      (tb c b).left < (tb c b).right ∧ (tb c b).bottom < (tb c b).top)
    (hwe : r.bounds.left < r.bounds.right)
    (hsn : r.bounds.bottom < r.bounds.top) :
    ∃ bb : Bounds,
      raster_bounds_4326 tb r = ((bb.bottom, bb.left), (bb.top, bb.right)) ∧
      bb.bottom < bb.top ∧ bb.left < bb.right := by
  rcases hc : r.crs with _ | s
  · exact ⟨r.bounds, by simp [raster_bounds_4326, hc], hsn, hwe⟩
  · by_cases hu : strUpper s = "EPSG:4326"
    · exact ⟨r.bounds, by simp [raster_bounds_4326, hc, hu], hsn, hwe⟩
    · exact ⟨tb s r.bounds, by simp [raster_bounds_4326, hc, hu],
        (htb s r.bounds hwe hsn).2, (htb s r.bounds hwe hsn).1⟩

/-- Instance of C9 on the sample raster with an order-preserving
transform. -/
theorem bounds_invariant_witness :
    ∃ bb : Bounds,
      raster_bounds_4326 idTransform sampleRaster =
        ((bb.bottom, bb.left), (bb.top, bb.right)) ∧
      bb.bottom < bb.top ∧ bb.left < bb.right :=
  bounds_invariant idTransform sampleRaster
    (fun _ _ h1 h2 => ⟨h1, h2⟩) (by decide) (by decide)

/-- Claim C10: the reprojection decision compares the uppercased CRS
string with the literal "EPSG:4326" — the native bounds are returned
exactly when the CRS is absent or uppercases to that literal, and any
other spelling (even one geodetically equal to WGS84) is sent through
the transform. -/
theorem bounds_crs_string_decision (tb : String → Bounds → Bounds) (r : Raster) :
    ((r.crs = none ∨ ∃ s : String, r.crs = some s ∧ strUpper s = "EPSG:4326") →
      raster_bounds_4326 tb r =
        ((r.bounds.bottom, r.bounds.left), (r.bounds.top, r.bounds.right))) ∧
    (∀ s : String, r.crs = some s → strUpper s ≠ "EPSG:4326" →
      raster_bounds_4326 tb r =
        (((tb s r.bounds).bottom, (tb s r.bounds).left),
          ((tb s r.bounds).top, (tb s r.bounds).right))) :=
  ⟨raster_bounds_native tb r, raster_bounds_transformed tb r⟩

/-- Instance of C10: the same coordinate-moving transform is skipped for
the EPSG:4326 raster and consulted for the differently spelled CRS. -/
theorem bounds_crs_string_decision_witness :
    raster_bounds_4326 constTransform sampleRaster = ((20, 10), (21, 11)) ∧
    raster_bounds_4326 constTransform projRaster = ((200, 100), (201, 101)) :=
  ⟨(bounds_crs_string_decision constTransform sampleRaster).1
      (Or.inr ⟨"EPSG:4326", rfl, rfl⟩),
    (bounds_crs_string_decision constTransform projRaster).2 "ESRI:102022" rfl
      (by decide)⟩

end Hyacinth
